import Mathlib

/-!
Shallow embedding of the address-resolution logic of `src/geo.py`
(Jan Aushadhi Store Geocoding App).

The geocoding pipeline in the source is pure control flow over external
provider calls.  We model the external world as an oracle (`World`)
assigning a deterministic response to every query that could be issued:
the geopy `Nominatim.geocode` calls of `geocode_address_free`, the HTTP
free-text searches of `try_alternative_geocoder`, and its postal-code
fallback query.  Each resolver function is embedded as a pure function
returning both the Python result dictionary (`PyResult`) and the ordered
trace of network calls it performed (`List Call`), so that claims about
"no network call" and call ordering are statable.

Coordinates are modelled as `Int`; the source merely forwards whatever
numeric values the provider returns, so their arithmetic type is
irrelevant to every property proved here.
-/

/-- Python `str.strip()`: remove leading and trailing whitespace.
Embedded at the character level so that it is kernel-computable. -/
def pyStrip (s : String) : String :=
  ⟨((s.data.dropWhile Char.isWhitespace).reverse.dropWhile Char.isWhitespace).reverse⟩

/-- Python `str.replace(',', ' ')`: both pattern and replacement are a
single character, so it is a character map. -/
def replaceCommas (s : String) : String :=
  ⟨s.data.map (fun c => if c = ',' then ' ' else c)⟩

/-- Python `str.split()` with no argument: split on runs of whitespace,
discarding empty pieces.  `acc` holds the current word reversed. -/
def splitWsAux : List Char → List Char → List (List Char)
  | [], acc => if acc.isEmpty then [] else [acc.reverse]
  | c :: cs, acc =>
      if c.isWhitespace then
        if acc.isEmpty then splitWsAux cs []
        else acc.reverse :: splitWsAux cs []
      else splitWsAux cs (c :: acc)

/-- Python `' '.join(words)`. -/
def joinSpace : List (List Char) → List Char
  | [] => []
  | [w] => w
  | w :: ws => w ++ (' ' :: joinSpace ws)

/-- Embeds `clean_address` (src/geo.py lines 28-34): strip both inputs,
replace commas by spaces in the address, then collapse whitespace runs
via Python's `' '.join(address.split())`. -/
def clean_address (address pin_code : String) : String × String :=
  let address := pyStrip address
  let pin_code := pyStrip pin_code
  let address := replaceCommas address
  let address : String := ⟨joinSpace (splitWsAux address.data [])⟩
  (address, pin_code)

/-- Outcome of one `geocoder.geocode(...)` call (geopy): a truthy location,
a `None` result, or a raised exception.  The source catches
`(GeocoderTimedOut, GeocoderServiceError, Exception)` in a single handler,
so all exceptions behave identically; `exc` covers them all. -/
inductive GeopyResponse where
  | found (lat lon : Int) (addr : String)
  | notFound
  | exc
deriving DecidableEq, Repr

/-- Outcome of one `requests.get` call against the Nominatim HTTP API:
HTTP 200 with a non-empty JSON list (first element carried here),
HTTP 200 with an empty list, a non-200 status, or a raised exception. -/
inductive HttpResponse where
  | ok (lat lon : Int) (display_name : String)
  | okEmpty
  | badStatus
  | exc
deriving DecidableEq, Repr

/-- Deterministic oracle for the external world.  `initError` models an
exception raised before the candidate loop starts (e.g. in
`get_geocoder()`), caught by the outer handler at line 67-68; `geopy`
answers `geocoder.geocode q`, `http` answers the free-text HTTP search
for query `q`, and `postal` answers the postal-code search for a pin. -/
structure World where
  initError : Option String := none
  geopy : String → GeopyResponse
  http : String → HttpResponse
  postal : String → HttpResponse

/-- The result dictionary produced by the source: exactly the five keys
`latitude`, `longitude`, `formatted_address`, `status`, `service`. -/
structure PyResult where
  latitude : Option Int
  longitude : Option Int
  formatted_address : Option String
  status : String
  service : String
deriving DecidableEq, Repr

/-- One network call, recorded in issue order. -/
inductive Call where
  | geopy (q : String)
  | http (q : String)
  | postal (pin : String)
deriving DecidableEq, Repr

/-- The `address_formats` list of `geocode_address_free` (lines 43-50),
built unconditionally from the cleaned address and pin. -/
def address_formats (clean_addr clean_pin : String) : List String :=
  [clean_addr ++ " " ++ clean_pin ++ " India",
   clean_addr ++ ", " ++ clean_pin ++ ", India",
   clean_addr ++ " India " ++ clean_pin,
   clean_addr ++ ", India",
   clean_pin ++ ", India",
   clean_addr]

/-- The `address_variants` list of `try_alternative_geocoder`
(lines 74-80), built unconditionally. -/
def address_variants (address pin_code : String) : List String :=
  [address ++ " " ++ pin_code ++ " India",
   address ++ ", " ++ pin_code ++ ", India",
   address ++ " India",
   pin_code ++ " India",
   address]

/-- The success dictionary returned at lines 57-63 when the geopy call
for `q` yields a truthy location; `none` otherwise. -/
def geopyResult (w : World) (q : String) : Option PyResult :=
  match w.geopy q with
  | .found lat lon addr =>
      some ⟨some lat, some lon, some addr, "SUCCESS", "Nominatim_Geopy"⟩
  | _ => none

/-- The success dictionary returned at line 92 when the HTTP search for
`q` yields status 200 and non-empty data; `none` otherwise. -/
def httpResult (w : World) (q : String) : Option PyResult :=
  match w.http q with
  | .ok lat lon dn =>
      some ⟨some lat, some lon, some dn, "SUCCESS", "Nominatim_HTTP"⟩
  | _ => none

/-- The success dictionary returned at line 106 when the postal-code
search for `pin` yields status 200 and non-empty data; `none` otherwise. -/
def postalResult (w : World) (pin : String) : Option PyResult :=
  match w.postal pin with
  | .ok lat lon dn =>
      some ⟨some lat, some lon,
            some ("Near " ++ dn ++ " (Pin Code: " ++ pin ++ ")"),
            "SUCCESS", "Nominatim_PostalCode"⟩
  | _ => none

/-- The candidate loop of `geocode_address_free` (lines 52-65): issue the
geopy call for each format in order; return on the first truthy location;
on `None` or any exception continue with the next format. -/
def geopyLoop (w : World) : List String → Option PyResult × List Call
  | [] => (none, [])
  | q :: rest =>
    match geopyResult w q with
    | some r => (some r, [Call.geopy q])
    | none =>
        let (r, t) := geopyLoop w rest
        (r, Call.geopy q :: t)

/-- The variant loop of `try_alternative_geocoder` (lines 81-94): issue
the HTTP search for each variant in order; return on the first 200
response with non-empty data; otherwise continue. -/
def httpLoop (w : World) : List String → Option PyResult × List Call
  | [] => (none, [])
  | q :: rest =>
    match httpResult w q with
    | some r => (some r, [Call.http q])
    | none =>
        let (r, t) := httpLoop w rest
        (r, Call.http q :: t)

/-- The postal-code fallback of `try_alternative_geocoder` (lines
95-108): guarded by `pin_code and len(pin_code) >= 5`; a single call
whose failure (exception, non-200, or empty data) is swallowed. -/
def postalPart (w : World) (pin_code : String) : Option PyResult × List Call :=
  if pin_code ≠ "" ∧ 5 ≤ pin_code.length then
    (postalResult w pin_code, [Call.postal pin_code])
  else
    (none, [])

/-- Embeds `try_alternative_geocoder` (lines 70-109). -/
def try_alternative_geocoder (w : World) (address pin_code : String) :
    PyResult × List Call :=
  match httpLoop w (address_variants address pin_code) with
  | (some r, t) => (r, t)
  | (none, t) =>
    match postalPart w pin_code with
    | (some r, t2) => (r, t ++ t2)
    | (none, t2) =>
        (⟨none, none, none, "ERROR: No results found", "None"⟩, t ++ t2)

/-- Embeds `geocode_address_free` (lines 37-68).  An exception before the
loop (modelled by `initError`) is caught by the outer handler and turned
into the `ERROR: <message>` dictionary of line 68. -/
def geocode_address_free (w : World) (address pin_code : String) :
    PyResult × List Call :=
  match w.initError with
  | some e => (⟨none, none, none, "ERROR: " ++ e, "None"⟩, [])
  | none =>
    let (clean_addr, clean_pin) := clean_address address pin_code
    match geopyLoop w (address_formats clean_addr clean_pin) with
    | (some r, t) => (r, t)
    | (none, t) =>
        let (r, t2) := try_alternative_geocoder w clean_addr clean_pin
        (r, t ++ t2)

/-- Embeds one iteration of the batch-driver row loop (lines 171-179):
a missing cell (`pd.notna` false) becomes `""`; a row is geocoded only
when both strings are truthy (non-empty), otherwise the
`ERROR: Missing address or pin` dictionary is appended with no call. -/
def process_row (w : World) (addressCell pinCell : Option String) :
    PyResult × List Call :=
  let address := addressCell.getD ""
  let pin_code := pinCell.getD ""
  if address ≠ "" ∧ pin_code ≠ "" then
    geocode_address_free w address pin_code
  else
    (⟨none, none, none, "ERROR: Missing address or pin", "None"⟩, [])

/-- The full ordered sequence of calls the resolver can ever issue for a
cleaned request: all six geopy formats, then all five HTTP variants, then
the guarded postal-code call. -/
def fullCalls (clean_addr clean_pin : String) : List Call :=
  (address_formats clean_addr clean_pin).map Call.geopy
    ++ ((address_variants clean_addr clean_pin).map Call.http
      ++ (if clean_pin ≠ "" ∧ 5 ≤ clean_pin.length then [Call.postal clean_pin] else []))

/-- Whether a call succeeds under oracle `w` (truthy location / 200 with
data). -/
def callOk (w : World) : Call → Bool
  | .geopy q => (geopyResult w q).isSome
  | .http q => (httpResult w q).isSome
  | .postal p => (postalResult w p).isSome

/-- `takeThrough p l` is the longest prefix of `l` up to and including
the first element satisfying `p` (all of `l` if none does). -/
def takeThrough (p : α → Bool) : List α → List α
  | [] => []
  | x :: xs => if p x then [x] else x :: takeThrough p xs

/-- Stub world: the primary provider answers every query with a fixed
location; the HTTP services are never reached. -/
def stubWorld : World :=
  { initError := none
    geopy := fun _ => .found 12 77 "Bengaluru, Karnataka, India"
    http := fun _ => .okEmpty
    postal := fun _ => .okEmpty }

/-- World in which every call fails: geopy raises, the HTTP search
returns non-200, the postal search returns an empty result list. -/
def failWorld : World :=
  { initError := none
    geopy := fun _ => .exc
    http := fun _ => .badStatus
    postal := fun _ => .okEmpty }

/-- World in which only the postal-code fallback succeeds. -/
def postalWorld : World :=
  { initError := none
    geopy := fun _ => .exc
    http := fun _ => .okEmpty
    postal := fun _ => .ok 28 77 "New Delhi, Delhi, India" }

/-- The dictionary returned at line 109 after full exhaustion. -/
def notFoundDict : PyResult :=
  ⟨none, none, none, "ERROR: No results found", "None"⟩

/-- The result dictionary of the first successful call, in the order the
source issues them: geopy formats, then HTTP variants, then the guarded
postal-code query; `none` when every call fails. -/
def firstSuccess (w : World) (clean_addr clean_pin : String) : Option PyResult :=
  match (address_formats clean_addr clean_pin).findSome? (geopyResult w) with
  | some r => some r
  | none =>
    match (address_variants clean_addr clean_pin).findSome? (httpResult w) with
    | some r => some r
    | none =>
        if clean_pin ≠ "" ∧ 5 ≤ clean_pin.length then postalResult w clean_pin
        else none

/-! ### Helper lemmas on `takeThrough`, `findSome?` and the loops -/

theorem takeThrough_append (p : α → Bool) (A B : List α) :
    takeThrough p (A ++ B) =
      if A.any p then takeThrough p A else A ++ takeThrough p B := by
  induction A with
  | nil => simp [takeThrough]
  | cons x xs ih =>
    by_cases h : p x
    · simp [takeThrough, h, List.any_cons]
    · by_cases h2 : xs.any p <;>
        simp [takeThrough, h, h2, List.any_cons, ih]

theorem takeThrough_map (p : β → Bool) (f : α → β) (L : List α) :
    takeThrough p (L.map f) = (takeThrough (fun a => p (f a)) L).map f := by
  induction L with
  | nil => rfl
  | cons x xs ih =>
    simp only [List.map_cons, takeThrough]
    by_cases h : p (f x) <;> simp [h, ih]

theorem takeThrough_eq_self (p : α → Bool) (L : List α) (h : L.any p = false) :
    takeThrough p L = L := by
  induction L with
  | nil => rfl
  | cons x xs ih =>
    simp only [List.any_cons, Bool.or_eq_false_iff] at h
    simp [takeThrough, h.1, ih h.2]

theorem findSome?_isSome_eq_any (f : α → Option β) (L : List α) :
    (L.findSome? f).isSome = L.any (fun a => (f a).isSome) := by
  induction L with
  | nil => rfl
  | cons x xs ih => cases h : f x <;> simp [List.findSome?_cons, h, ih]

theorem findSome?_eq_none_of_all (f : α → Option β) (L : List α)
    (h : ∀ a ∈ L, f a = none) : L.findSome? f = none :=
  List.findSome?_eq_none_iff.mpr h


theorem takeThrough_singleton (p : α → Bool) (x : α) :
    takeThrough p [x] = [x] := by
  by_cases h : p x <;> simp [takeThrough, h]

theorem takeThrough_cons_ne_nil (p : α → Bool) (x : α) (l : List α) :
    takeThrough p (x :: l) ≠ [] := by
  by_cases h : p x <;> simp [takeThrough, h]

/-- The geopy loop returns the first successful dictionary and records
exactly the calls up to and including the first success. -/
theorem geopyLoop_eq (w : World) (L : List String) :
    geopyLoop w L =
      (L.findSome? (geopyResult w), takeThrough (callOk w) (L.map Call.geopy)) := by
  induction L with
  | nil => rfl
  | cons q rest ih =>
    cases h : geopyResult w q with
    | some r => simp [geopyLoop, List.findSome?_cons, h, takeThrough, callOk]
    | none => simp [geopyLoop, List.findSome?_cons, h, takeThrough, callOk, ih]

/-- The HTTP variant loop returns the first successful dictionary and
records exactly the calls up to and including the first success. -/
theorem httpLoop_eq (w : World) (L : List String) :
    httpLoop w L =
      (L.findSome? (httpResult w), takeThrough (callOk w) (L.map Call.http)) := by
  induction L with
  | nil => rfl
  | cons q rest ih =>
    cases h : httpResult w q with
    | some r => simp [httpLoop, List.findSome?_cons, h, takeThrough, callOk]
    | none => simp [httpLoop, List.findSome?_cons, h, takeThrough, callOk, ih]

theorem any_callOk_geopy (w : World) (L : List String) :
    (L.map Call.geopy).any (callOk w) = (L.findSome? (geopyResult w)).isSome := by
  induction L with
  | nil => rfl
  | cons q rest ih => cases h : geopyResult w q <;> simp [List.findSome?_cons, h, callOk, ih]

theorem any_callOk_http (w : World) (L : List String) :
    (L.map Call.http).any (callOk w) = (L.findSome? (httpResult w)).isSome := by
  induction L with
  | nil => rfl
  | cons q rest ih => cases h : httpResult w q <;> simp [List.findSome?_cons, h, callOk, ih]

/-- Full characterization of `geocode_address_free` when no exception
precedes the candidate loop: the result is the dictionary of the first
successful call (or the exhaustion dictionary of line 109), and the call
trace is the canonical call sequence cut at the first success. -/
theorem geocode_eq (w : World) (address pin_code : String)
    (hw : w.initError = none) :
    geocode_address_free w address pin_code =
      ((firstSuccess w (clean_address address pin_code).1
          (clean_address address pin_code).2).getD notFoundDict,
       takeThrough (callOk w)
         (fullCalls (clean_address address pin_code).1
           (clean_address address pin_code).2)) := by
  rcases hcl : clean_address address pin_code with ⟨ca, cp⟩
  cases hg : (address_formats ca cp).findSome? (geopyResult w) with
  | some r =>
      have hGany : ((address_formats ca cp).map Call.geopy).any (callOk w) = true := by
        rw [any_callOk_geopy, hg]; rfl
      simp only [geocode_address_free, hw, hcl, geopyLoop_eq, hg, firstSuccess, fullCalls,
        Option.getD_some, takeThrough_append, hGany, if_true]
  | none =>
      have hGany : ((address_formats ca cp).map Call.geopy).any (callOk w) = false := by
        rw [any_callOk_geopy, hg]; rfl
      have hGfull : takeThrough (callOk w) ((address_formats ca cp).map Call.geopy)
          = (address_formats ca cp).map Call.geopy := takeThrough_eq_self _ _ hGany
      cases hh : (address_variants ca cp).findSome? (httpResult w) with
      | some r =>
          have hHany : ((address_variants ca cp).map Call.http).any (callOk w) = true := by
            rw [any_callOk_http, hh]; rfl
          simp only [geocode_address_free, hw, hcl, geopyLoop_eq, hg,
            try_alternative_geocoder, httpLoop_eq, hh, firstSuccess, fullCalls,
            Option.getD_some, takeThrough_append, hGany, hHany, Bool.false_eq_true,
            if_false, if_true, hGfull]
      | none =>
          have hHany : ((address_variants ca cp).map Call.http).any (callOk w) = false := by
            rw [any_callOk_http, hh]; rfl
          have hHfull : takeThrough (callOk w) ((address_variants ca cp).map Call.http)
              = (address_variants ca cp).map Call.http := takeThrough_eq_self _ _ hHany
          by_cases hp : cp ≠ "" ∧ 5 ≤ cp.length
          · have h5 : (cp ≠ "" ∧ 5 ≤ cp.length) = True := eq_true hp
            cases hpr : postalResult w cp with
            | some r =>
                simp only [geocode_address_free, hw, hcl, geopyLoop_eq, hg,
                  try_alternative_geocoder, httpLoop_eq, hh, postalPart, h5, if_true,
                  hpr, firstSuccess, fullCalls, Option.getD_some, takeThrough_append,
                  hGany, hHany, Bool.false_eq_true, if_false, hGfull, hHfull,
                  takeThrough_singleton]
            | none =>
                simp only [geocode_address_free, hw, hcl, geopyLoop_eq, hg,
                  try_alternative_geocoder, httpLoop_eq, hh, postalPart, h5, if_true,
                  hpr, firstSuccess, fullCalls, Option.getD_none, takeThrough_append,
                  hGany, hHany, Bool.false_eq_true, if_false, hGfull, hHfull,
                  takeThrough_singleton, notFoundDict]
          · have h5 : (cp ≠ "" ∧ 5 ≤ cp.length) = False := eq_false hp
            simp only [geocode_address_free, hw, hcl, geopyLoop_eq, hg,
              try_alternative_geocoder, httpLoop_eq, hh, postalPart, h5, if_false,
              firstSuccess, fullCalls, Option.getD_none, takeThrough_append,
              hGany, hHany, Bool.false_eq_true, hGfull, hHfull, notFoundDict,
              List.append_nil]

theorem geopyResult_some (w : World) (q : String) (r : PyResult)
    (h : geopyResult w q = some r) :
    ∃ lat lon fa, r = ⟨some lat, some lon, some fa, "SUCCESS", "Nominatim_Geopy"⟩ := by
  cases hq : w.geopy q with
  | found lat lon a =>
      simp [geopyResult, hq] at h
      exact ⟨lat, lon, a, h.symm⟩
  | notFound => simp [geopyResult, hq] at h
  | exc => simp [geopyResult, hq] at h

theorem httpResult_some (w : World) (q : String) (r : PyResult)
    (h : httpResult w q = some r) :
    ∃ lat lon fa, r = ⟨some lat, some lon, some fa, "SUCCESS", "Nominatim_HTTP"⟩ := by
  cases hq : w.http q with
  | ok lat lon dn =>
      simp [httpResult, hq] at h
      exact ⟨lat, lon, dn, h.symm⟩
  | okEmpty => simp [httpResult, hq] at h
  | badStatus => simp [httpResult, hq] at h
  | exc => simp [httpResult, hq] at h

theorem postalResult_some (w : World) (pin : String) (r : PyResult)
    (h : postalResult w pin = some r) :
    ∃ lat lon fa, r = ⟨some lat, some lon, some fa, "SUCCESS", "Nominatim_PostalCode"⟩ := by
  cases hq : w.postal pin with
  | ok lat lon dn =>
      simp [postalResult, hq] at h
      exact ⟨lat, lon, "Near " ++ dn ++ " (Pin Code: " ++ pin ++ ")", h.symm⟩
  | okEmpty => simp [postalResult, hq] at h
  | badStatus => simp [postalResult, hq] at h
  | exc => simp [postalResult, hq] at h

/-- Every dictionary `firstSuccess` can yield is a success dictionary of
one of the three concrete services. -/
theorem firstSuccess_some (w : World) (ca cp : String) (r : PyResult)
    (h : firstSuccess w ca cp = some r) :
    ∃ lat lon fa sv, r = ⟨some lat, some lon, some fa, "SUCCESS", sv⟩ ∧
      sv ∈ (["Nominatim_Geopy", "Nominatim_HTTP", "Nominatim_PostalCode"] : List String) := by
  unfold firstSuccess at h
  cases hg : (address_formats ca cp).findSome? (geopyResult w) with
  | some r0 =>
      simp only [hg] at h
      obtain ⟨q, _, hq⟩ := List.exists_of_findSome?_eq_some hg
      obtain ⟨lat, lon, fa, hr⟩ := geopyResult_some w q r0 hq
      injection h with h
      exact ⟨lat, lon, fa, "Nominatim_Geopy", by rw [← h, hr], by simp⟩
  | none =>
      simp only [hg] at h
      cases hh : (address_variants ca cp).findSome? (httpResult w) with
      | some r0 =>
          simp only [hh] at h
          obtain ⟨q, _, hq⟩ := List.exists_of_findSome?_eq_some hh
          obtain ⟨lat, lon, fa, hr⟩ := httpResult_some w q r0 hq
          injection h with h
          exact ⟨lat, lon, fa, "Nominatim_HTTP", by rw [← h, hr], by simp⟩
      | none =>
          simp only [hh] at h
          by_cases hp : cp ≠ "" ∧ 5 ≤ cp.length
          · rw [if_pos hp] at h
            obtain ⟨lat, lon, fa, hr⟩ := postalResult_some w cp r h
            exact ⟨lat, lon, fa, "Nominatim_PostalCode", hr, by simp⟩
          · rw [if_neg hp] at h
            exact Option.noConfusion h

/-- Every dictionary `geocode_address_free` can return is either a
success dictionary of one of the three services or an all-`None`
dictionary whose status starts with `ERROR: `. -/
theorem geocode_shape (w : World) (address pin_code : String) :
    (∃ lat lon fa sv, (geocode_address_free w address pin_code).1
        = ⟨some lat, some lon, some fa, "SUCCESS", sv⟩ ∧
      sv ∈ (["Nominatim_Geopy", "Nominatim_HTTP", "Nominatim_PostalCode"] : List String)) ∨
    (∃ msg, (geocode_address_free w address pin_code).1
        = ⟨none, none, none, "ERROR: " ++ msg, "None"⟩) := by
  cases hw : w.initError with
  | some e =>
      right
      exact ⟨e, by simp [geocode_address_free, hw]⟩
  | none =>
      rw [geocode_eq w address pin_code hw]
      cases hf : firstSuccess w (clean_address address pin_code).1
          (clean_address address pin_code).2 with
      | some r =>
          left
          obtain ⟨lat, lon, fa, sv, hr, hsv⟩ := firstSuccess_some _ _ _ _ hf
          exact ⟨lat, lon, fa, sv, by simp [hf, hr], hsv⟩
      | none =>
          right
          refine ⟨"No results found", by simp [hf, notFoundDict]⟩

/-- Every dictionary the batch driver appends for a row is either a
success dictionary of one of the three services or an all-`None`
dictionary whose status starts with `ERROR: `. -/
theorem process_row_shape (w : World) (a p : Option String) :
    (∃ lat lon fa sv, (process_row w a p).1
        = ⟨some lat, some lon, some fa, "SUCCESS", sv⟩ ∧
      sv ∈ (["Nominatim_Geopy", "Nominatim_HTTP", "Nominatim_PostalCode"] : List String)) ∨
    (∃ msg, (process_row w a p).1
        = ⟨none, none, none, "ERROR: " ++ msg, "None"⟩) := by
  unfold process_row
  by_cases hc : a.getD "" ≠ "" ∧ p.getD "" ≠ ""
  · rw [if_pos hc]
    exact geocode_shape w _ _
  · rw [if_neg hc]
    right
    exact ⟨"Missing address or pin", by simp⟩

/-- A status built by the `ERROR: ` branches never equals a string that
does not start with `E`. -/
theorem err_append_ne (e s : String) (hs : s.data.head? ≠ some 'E') :
    ("ERROR: " ++ e) ≠ s := by
  intro h
  apply hs
  rw [← h, String.data_append]
  rfl

/-- C1, counterexample: for the request (address "ab", pin "110001") —
an address shorter than 5 characters — against a primary provider that
answers every query, `geocode_address_free` returns SUCCESS after
querying the provider; it does not return FAILED with reason
"Too short or invalid" and it does perform a network call, so the claim
is false on the code. -/
theorem c1_short_address_counterexample :
    (geocode_address_free stubWorld "ab" "110001").1.status = "SUCCESS" ∧
    (geocode_address_free stubWorld "ab" "110001").2 ≠ [] := by
  constructor
  · rfl
  · decide

/-- C1, amended: the code has no address-length or alphabetic-character
guard.  For every world with no pre-loop exception and every request —
in particular one whose address is shorter than 5 characters or has no
alphabetic character — the resolver queries the primary provider (the
call trace is non-empty) and the statuses "FAILED" and
"Too short or invalid" are never produced. -/
theorem c1_no_short_address_guard (w : World) (address pin_code : String)
    (hw : w.initError = none)
    (_hbad : address.length < 5 ∨ ∀ c ∈ address.data, ¬ c.isAlpha) :
    (geocode_address_free w address pin_code).2 ≠ [] ∧
    (geocode_address_free w address pin_code).1.status ≠ "FAILED" ∧
    (geocode_address_free w address pin_code).1.status ≠ "Too short or invalid" := by
  refine ⟨?_, ?_, ?_⟩
  · rw [geocode_eq w address pin_code hw]
    simp only [fullCalls, address_formats, List.map_cons, List.cons_append]
    exact takeThrough_cons_ne_nil _ _ _
  · rcases geocode_shape w address pin_code with ⟨lat, lon, fa, sv, hr, _⟩ | ⟨msg, hr⟩
    · rw [hr]
      show ("SUCCESS" : String) ≠ "FAILED"
      decide
    · rw [hr]
      exact err_append_ne msg "FAILED" (by decide)
  · rcases geocode_shape w address pin_code with ⟨lat, lon, fa, sv, hr, _⟩ | ⟨msg, hr⟩
    · rw [hr]
      show ("SUCCESS" : String) ≠ "Too short or invalid"
      decide
    · rw [hr]
      exact err_append_ne msg "Too short or invalid" (by decide)

/-- C1, witness for the amended theorem at address "ab", pin "110001". -/
theorem c1_no_short_address_guard_witness :
    stubWorld.initError = none ∧ ("ab" : String).length < 5 ∧
    ((geocode_address_free stubWorld "ab" "110001").2 ≠ [] ∧
     (geocode_address_free stubWorld "ab" "110001").1.status ≠ "FAILED" ∧
     (geocode_address_free stubWorld "ab" "110001").1.status ≠ "Too short or invalid") :=
  ⟨rfl, by decide, c1_no_short_address_guard stubWorld "ab" "110001" rfl (Or.inl (by decide))⟩

/-- C2, counterexample: the row (address "MG Road Pharmacy", pin "") has
a non-empty address, so by the claim it must not be rejected for missing
input; the code rejects it anyway ("ERROR: Missing address or pin", no
network call) because the batch driver requires BOTH fields truthy.  The
produced reason also differs from the claimed FAILED/"Missing Input". -/
theorem c2_missing_input_counterexample :
    (process_row stubWorld (some "MG Road Pharmacy") (some "")).1.status
        = "ERROR: Missing address or pin" ∧
    (process_row stubWorld (some "MG Road Pharmacy") (some "")).2 = [] := by
  constructor
  · rfl
  · rfl

/-- C2, amended: a row is rejected exactly when the raw address string
or the raw pin string is empty (a missing cell counts as empty; no
trimming is applied): then the appended dictionary is
{status "ERROR: Missing address or pin", service "None", other fields
None} and no network call is made; when both strings are non-empty the
row is geocoded by `geocode_address_free`. -/
theorem c2_missing_input_rejection (w : World) (a p : Option String) :
    ((a.getD "" = "" ∨ p.getD "" = "") →
      process_row w a p =
        (⟨none, none, none, "ERROR: Missing address or pin", "None"⟩, [])) ∧
    (a.getD "" ≠ "" → p.getD "" ≠ "" →
      process_row w a p = geocode_address_free w (a.getD "") (p.getD "")) := by
  constructor
  · intro h
    simp only [process_row]
    rw [if_neg]
    rcases h with h | h
    · exact fun hc => hc.1 h
    · exact fun hc => hc.2 h
  · intro h1 h2
    simp only [process_row]
    rw [if_pos ⟨h1, h2⟩]

/-- C2, witness for the amended theorem at an empty address with a
non-empty pin. -/
theorem c2_missing_input_rejection_witness :
    process_row stubWorld (some "") (some "110001") =
      (⟨none, none, none, "ERROR: Missing address or pin", "None"⟩, []) :=
  (c2_missing_input_rejection stubWorld (some "") (some "110001")).1 (Or.inl rfl)

/-- C3, counterexample: against a primary provider whose every call
raises (the handler at line 64 treats a timeout and any other exception
identically), the first (provider, candidate) pair is attempted exactly
once — not the 2 attempts the claim requires for transient failures. -/
theorem c3_no_retry_counterexample :
    ((geocode_address_free failWorld "MG Road Pharmacy" "560001").2.count
        (Call.geopy "MG Road Pharmacy 560001 India")) = 1 ∧
    ((geocode_address_free failWorld "MG Road Pharmacy" "560001").2.count
        (Call.geopy "MG Road Pharmacy 560001 India")) ≠ 2 := by
  constructor
  · decide
  · decide

/-- C3, amended: there is no retry loop: on any exception — transient or
not — the resolver advances immediately to the next candidate, so when
every primary call fails each of the six primary candidates is queried
exactly once, in listed order, after which the resolver moves on to the
alternative geocoder. -/
theorem c3_single_attempt (w : World) (address pin_code : String)
    (hw : w.initError = none)
    (hfail : ∀ q, w.geopy q = GeopyResponse.exc) :
    (geocode_address_free w address pin_code).2 =
      ((address_formats (clean_address address pin_code).1
          (clean_address address pin_code).2).map Call.geopy)
        ++ (try_alternative_geocoder w (clean_address address pin_code).1
            (clean_address address pin_code).2).2 := by
  rcases hcl : clean_address address pin_code with ⟨ca, cp⟩
  have hnone : ∀ q, geopyResult w q = none := fun q => by simp [geopyResult, hfail q]
  have hfs : (address_formats ca cp).findSome? (geopyResult w) = none :=
    findSome?_eq_none_of_all _ _ (fun q _ => hnone q)
  have hGany : ((address_formats ca cp).map Call.geopy).any (callOk w) = false := by
    rw [any_callOk_geopy, hfs]; rfl
  rcases hta : try_alternative_geocoder w ca cp with ⟨r2, t2⟩
  simp only [geocode_address_free, hw, hcl, geopyLoop_eq, hfs, hta,
    takeThrough_eq_self _ _ hGany]

/-- C3, witness for the amended theorem. -/
theorem c3_single_attempt_witness :
    failWorld.initError = none ∧
    (geocode_address_free failWorld "MG Road Pharmacy" "560001").2 =
      ((address_formats (clean_address "MG Road Pharmacy" "560001").1
          (clean_address "MG Road Pharmacy" "560001").2).map Call.geopy)
        ++ (try_alternative_geocoder failWorld (clean_address "MG Road Pharmacy" "560001").1
            (clean_address "MG Road Pharmacy" "560001").2).2 :=
  ⟨rfl, c3_single_attempt failWorld "MG Road Pharmacy" "560001" rfl (fun _ => rfl)⟩

/-- C4, counterexample: when every candidate fails against every
provider, the returned status is "ERROR: No results found", not the
claimed FAILED with reason "Not Found". -/
theorem c4_not_found_counterexample :
    (geocode_address_free failWorld "MG Road Pharmacy" "560001").1.status
        = "ERROR: No results found" ∧
    (geocode_address_free failWorld "MG Road Pharmacy" "560001").1.status ≠ "FAILED" := by
  constructor
  · rfl
  · decide

/-- C4, amended: for every request for which every candidate against
every provider fails to yield a location, the resolver returns the
dictionary {latitude None, longitude None, formatted_address None,
status "ERROR: No results found", service "None"}. -/
theorem c4_exhaustion_result (w : World) (address pin_code : String)
    (hw : w.initError = none)
    (hg : ∀ q, geopyResult w q = none)
    (hh : ∀ q, httpResult w q = none)
    (hp : ∀ q, postalResult w q = none) :
    (geocode_address_free w address pin_code).1 =
      ⟨none, none, none, "ERROR: No results found", "None"⟩ := by
  rw [geocode_eq w address pin_code hw]
  have hfs : firstSuccess w (clean_address address pin_code).1
      (clean_address address pin_code).2 = none := by
    unfold firstSuccess
    simp only [findSome?_eq_none_of_all _ _ (fun q _ => hg q),
        findSome?_eq_none_of_all _ _ (fun q _ => hh q)]
    split
    · exact hp _
    · rfl
  simp [hfs, notFoundDict]

/-- C4, witness for the amended theorem. -/
theorem c4_exhaustion_result_witness :
    failWorld.initError = none ∧
    (geocode_address_free failWorld "MG Road Pharmacy" "560001").1 =
      ⟨none, none, none, "ERROR: No results found", "None"⟩ :=
  ⟨rfl, c4_exhaustion_result failWorld "MG Road Pharmacy" "560001" rfl
      (fun _ => rfl) (fun _ => rfl) (fun _ => rfl)⟩

/-- C5: full temporal characterization of the resolver (no pre-loop
exception).  The call trace equals the canonical ordered sequence
`fullCalls` — all six primary-provider candidates in listed order, then
all five secondary (HTTP) candidates in listed order, then the guarded
postal-code call — cut off at (and including) the first successful call,
and the returned dictionary is that first successful call's dictionary
(`firstSuccess`, which searches the same order), or the exhaustion
dictionary when no call succeeds.  Hence the first lookup returning a
location is terminal (nothing is queried after it and its coordinates,
matched address and provider name are returned), the secondary provider
is never queried before the primary provider's candidates are exhausted,
and candidates are never queried out of listed order. -/
theorem c5_first_success_terminal (w : World) (address pin_code : String)
    (hw : w.initError = none) :
    geocode_address_free w address pin_code =
      ((firstSuccess w (clean_address address pin_code).1
          (clean_address address pin_code).2).getD notFoundDict,
       takeThrough (callOk w)
         (fullCalls (clean_address address pin_code).1
           (clean_address address pin_code).2)) :=
  geocode_eq w address pin_code hw

/-- C5, witness at a concrete request and world. -/
theorem c5_first_success_terminal_witness :
    stubWorld.initError = none ∧
    geocode_address_free stubWorld "MG Road Pharmacy" "560001" =
      ((firstSuccess stubWorld (clean_address "MG Road Pharmacy" "560001").1
          (clean_address "MG Road Pharmacy" "560001").2).getD notFoundDict,
       takeThrough (callOk stubWorld)
         (fullCalls (clean_address "MG Road Pharmacy" "560001").1
           (clean_address "MG Road Pharmacy" "560001").2)) :=
  ⟨rfl, c5_first_success_terminal stubWorld "MG Road Pharmacy" "560001" rfl⟩

/-- C6, counterexample: the pin " " normalizes to the empty string, yet
the batch driver accepts the row (both raw strings truthy) and the
resolver sends the pin-qualified candidate built from the empty pin —
the query ", India" — to the primary provider, contradicting the claim
that no candidate with an empty required field is ever sent. -/
theorem c6_empty_pin_candidate_counterexample :
    (clean_address "MG Road Pharmacy" " ").2 = "" ∧
    Call.geopy ", India" ∈ (process_row failWorld (some "MG Road Pharmacy") (some " ")).2 := by
  constructor
  · rfl
  · decide

/-- C6, amended: the candidate templates are instantiated
unconditionally, regardless of empty fields (there is no state field at
all): whenever the cleaned pin is empty and the primary provider yields
no location, the degenerate pin-qualified candidate ", India" is
actually sent to it. -/
theorem c6_empty_pin_candidate_sent (w : World) (address pin_code : String)
    (hw : w.initError = none)
    (hpin : (clean_address address pin_code).2 = "")
    (hfail : ∀ q, geopyResult w q = none) :
    Call.geopy ", India" ∈ (geocode_address_free w address pin_code).2 := by
  rw [geocode_eq w address pin_code hw, hpin]
  have h0 : (("" : String) ++ ", India") = ", India" := rfl
  have hGany : ((address_formats (clean_address address pin_code).1 "").map
      Call.geopy).any (callOk w) = false := by
    rw [any_callOk_geopy, findSome?_eq_none_of_all _ _ (fun q _ => hfail q)]
    rfl
  rw [fullCalls, takeThrough_append, hGany]
  simp only [Bool.false_eq_true, if_false]
  apply List.mem_append_left
  simp [address_formats, h0]

/-- C6, witness for the amended theorem. -/
theorem c6_empty_pin_candidate_sent_witness :
    failWorld.initError = none ∧
    (clean_address "MG Road Pharmacy" " ").2 = "" ∧
    Call.geopy ", India" ∈ (geocode_address_free failWorld "MG Road Pharmacy" " ").2 :=
  ⟨rfl, rfl, c6_empty_pin_candidate_sent failWorld "MG Road Pharmacy" " " rfl rfl
      (fun _ => rfl)⟩

/-- C7, counterexample: the pin code "110001.0" is NOT reduced to
"110001" by normalization — `clean_address` only strips surrounding
whitespace from the pin and never removes a trailing fractional
suffix. -/
theorem c7_fractional_pin_counterexample :
    (clean_address "MG Road Pharmacy" "110001.0").2 = "110001.0" ∧
    ("110001.0" : String) ≠ "110001" := by
  constructor
  · rfl
  · decide

/-- C7, amended: normalization trims surrounding whitespace and, in the
address only, replaces commas by spaces and collapses internal
whitespace runs; the pin code is merely stripped of surrounding
whitespace (Python `str.strip()`, embedded as `pyStrip`) — in
particular a trailing ".0" survives normalization. -/
theorem c7_pin_only_trimmed (address pin_code : String) :
    (clean_address address pin_code).2 = pyStrip pin_code ∧
    (clean_address "  MG   Road,  Bengaluru  " pin_code).1 = "MG Road Bengaluru" := by
  constructor
  · rfl
  · rfl

/-- C8, counterexample: a run in which only the postal-code fallback
succeeds produces the Geocoding_Service value "Nominatim_PostalCode" — a
fourth value outside the claimed three-element set
{primary name, secondary name, "None"}. -/
theorem c8_service_counterexample :
    (process_row postalWorld (some "MG Road Pharmacy") (some "560001")).1.service
        = "Nominatim_PostalCode" ∧
    "Nominatim_PostalCode" ∉ (["Nominatim_Geopy", "Nominatim_HTTP", "None"] : List String) := by
  constructor
  · rfl
  · decide

/-- C8, amended: for every row, the status is either "SUCCESS" or a
string of the form "ERROR: <message>" (FAILED never occurs), and the
service lies in the FOUR-element set {"Nominatim_Geopy",
"Nominatim_HTTP", "Nominatim_PostalCode", "None"}. -/
theorem c8_status_service_range (w : World) (a p : Option String) :
    ((process_row w a p).1.status = "SUCCESS" ∨
      ∃ msg, (process_row w a p).1.status = "ERROR: " ++ msg) ∧
    (process_row w a p).1.service ∈
      (["Nominatim_Geopy", "Nominatim_HTTP", "Nominatim_PostalCode", "None"] : List String) := by
  rcases process_row_shape w a p with ⟨lat, lon, fa, sv, hr, hsv⟩ | ⟨msg, hr⟩
  · refine ⟨Or.inl (by rw [hr]), ?_⟩
    rw [hr]
    simp only [List.mem_cons, List.mem_singleton] at hsv ⊢
    tauto
  · exact ⟨Or.inr ⟨msg, by rw [hr]⟩, by rw [hr]; simp⟩

/-- C9: the resolver is embedded as a pure function of the request and
the provider oracle, so resolving the same normalized request twice
against the same stubbed providers yields identical results; moreover,
against a stub primary provider returning a fixed location for every
query, the result is SUCCESS with exactly the stub's coordinates and
address via the first candidate. -/
theorem c9_idempotent (w : World) (address pin_code : String)
    (lat lon : Int) (a : String)
    (hw : w.initError = none)
    (hstub : ∀ q, w.geopy q = GeopyResponse.found lat lon a) :
    geocode_address_free w address pin_code = geocode_address_free w address pin_code ∧
    (geocode_address_free w address pin_code).1 =
      ⟨some lat, some lon, some a, "SUCCESS", "Nominatim_Geopy"⟩ := by
  refine ⟨rfl, ?_⟩
  rcases hcl : clean_address address pin_code with ⟨ca, cp⟩
  simp [geocode_address_free, hw, hcl, address_formats, geopyLoop, geopyResult, hstub]

/-- C9, witness. -/
theorem c9_idempotent_witness :
    stubWorld.initError = none ∧
    (geocode_address_free stubWorld "MG Road Pharmacy" "560001"
        = geocode_address_free stubWorld "MG Road Pharmacy" "560001" ∧
    (geocode_address_free stubWorld "MG Road Pharmacy" "560001").1 =
      ⟨some 12, some 77, some "Bengaluru, Karnataka, India", "SUCCESS", "Nominatim_Geopy"⟩) :=
  ⟨rfl, c9_idempotent stubWorld "MG Road Pharmacy" "560001" 12 77
      "Bengaluru, Karnataka, India" rfl (fun _ => rfl)⟩

/-- C10: every result dictionary has exactly the five fields of
`PyResult` (latitude, longitude, formatted_address, status, service —
enforced by the structure type); whenever the status is SUCCESS the
latitude and longitude are present, and whenever the status is not
SUCCESS the latitude, longitude and formatted_address are all None and
the service is "None".  Stated over the batch driver's per-row results,
which cover every dictionary `geocode_address_free` and
`try_alternative_geocoder` can produce plus the driver's own
missing-input dictionary. -/
theorem c10_field_invariant (w : World) (a p : Option String) :
    ((process_row w a p).1.status = "SUCCESS" →
      (process_row w a p).1.latitude.isSome ∧ (process_row w a p).1.longitude.isSome) ∧
    ((process_row w a p).1.status ≠ "SUCCESS" →
      (process_row w a p).1.latitude = none ∧ (process_row w a p).1.longitude = none ∧
      (process_row w a p).1.formatted_address = none ∧
      (process_row w a p).1.service = "None") := by
  rcases process_row_shape w a p with ⟨lat, lon, fa, sv, hr, _⟩ | ⟨msg, hr⟩
  · rw [hr]
    exact ⟨fun _ => ⟨rfl, rfl⟩, fun hne => absurd rfl hne⟩
  · rw [hr]
    exact ⟨fun hs => absurd hs (err_append_ne msg "SUCCESS" (by decide)),
      fun _ => ⟨rfl, rfl, rfl, rfl⟩⟩

/-- C10, witness at a successful and at a rejected row. -/
theorem c10_field_invariant_witness :
    (process_row stubWorld (some "MG Road Pharmacy") (some "560001")).1.status = "SUCCESS" ∧
    ((process_row stubWorld (some "MG Road Pharmacy") (some "560001")).1.latitude.isSome ∧
     (process_row stubWorld (some "MG Road Pharmacy") (some "560001")).1.longitude.isSome) :=
  ⟨rfl, (c10_field_invariant stubWorld (some "MG Road Pharmacy") (some "560001")).1 rfl⟩
